import Mathlib

/-!
# Verification of the Quora scraper's extraction and export logic

This file is a shallow embedding, in Lean 4, of the pure logic of
`src/extractors/quora_parser.py` and `src/outputs/exporters.py` from the
`quora-search-results-scraper-and-or-question-answers-scraper` repository,
together with theorems settling the frozen claims about that code.

Modelling conventions:

* Python strings are Lean `String`s (a `String` here is a structure holding a
  `List Char`, which matches Python's code-point indexing and slicing).
* Python `None`/absence is `Option.none`; extractor helpers that can fall
  through return `Option` values.
* The external collaborators (HTTP session, BeautifulSoup, `hashlib`,
  `pandas`, the filesystem, and wall-clock time) are embedded as follows:
  - BeautifulSoup's parse tree is the inductive `Node`; its query methods
    (`find_all`, `find`, `get_text`, attribute access) are translated to
    recursive functions on `Node`, with document order = pre-order.
  - `hashlib.sha256(...).hexdigest()` is implemented in full (FIPS 180-4)
    over `Nat` byte lists with explicit `% 2^32` arithmetic.
  - the filesystem is an explicit `FileSystem` state (created directories
    plus written files) threaded through the exporter.
  - `now_utc()` / `to_iso` / `timestamp_for_filename` are outside the
    repository's parsing logic and enter as opaque string parameters.
* Python `float(token)` inside `_parse_compact_number` is modelled as an
  exact decimal value (mantissa times a power of ten); IEEE-754 rounding is
  idealized away.  On every input appearing in the claims the two agree.
-/

/-! ## Python string primitives -/

/-- Python `str.strip()` (restricted to ASCII whitespace): drop leading and
trailing whitespace characters. -/
def pyStrip (s : String) : String :=
  ⟨((s.data.dropWhile Char.isWhitespace).reverse.dropWhile Char.isWhitespace).reverse⟩

/-- Python `str.lower()` (ASCII): lowercase every character. -/
def pyLower (s : String) : String :=
  ⟨s.data.map Char.toLower⟩

/-- Python slice `s[:n]`: the first `n` characters of `s`. -/
def pyTake (s : String) (n : Nat) : String :=
  ⟨s.data.take n⟩

/-- Substring test on character lists: does `pat` occur contiguously in the
subject list?  (`[] ` occurs in everything, as in Python.) -/
def containsSub (pat : List Char) : List Char → Bool
  | [] => pat.isEmpty
  | c :: t => pat.isPrefixOf (c :: t) || containsSub pat t

/-- Python `pat in s` for strings. -/
def strContains (s pat : String) : Bool :=
  containsSub pat.data s.data

/-- Python `s.startswith(pat)`. -/
def strStartsWith (s pat : String) : Bool :=
  pat.data.isPrefixOf s.data

/-- Python `str.split()` with no argument: split on runs of whitespace,
dropping empty pieces. -/
def pySplitWs (s : String) : List String :=
  let step := fun (acc : List (List Char) × List Char) (c : Char) =>
    if c.isWhitespace then
      (if acc.2.isEmpty then acc else (acc.2.reverse :: acc.1, []))
    else (acc.1, c :: acc.2)
  let r := s.data.foldl step ([], [])
  (if r.2.isEmpty then r.1 else r.2.reverse :: r.1).reverse.map (fun l => ⟨l⟩)

/-- Python `sep.join(parts)`. -/
def joinSep (sep : String) (parts : List String) : String :=
  ⟨List.intercalate sep.data (parts.map (fun p => p.data))⟩

/-- Numeric value of a list of decimal digit characters. -/
def digitsVal (l : List Char) : Nat :=
  l.foldl (fun a c => a * 10 + (c.toNat - 48)) 0

/-- Python `int(s)` (base 10), restricted to the plain form
`[whitespace] [sign] digits [whitespace]` (underscore grouping is not
modelled; no input in this development uses it).  Failure (`ValueError`) is
`none`. -/
def pyInt (s : String) : Option Int :=
  let l := (pyStrip s).data
  let p : Int × List Char :=
    match l with
    | '+' :: t => (1, t)
    | '-' :: t => (-1, t)
    | t => (1, t)
  if p.2 ≠ [] ∧ p.2.all Char.isDigit then some (p.1 * digitsVal p.2) else none

/-- Value of a single hexadecimal digit character, `none` for anything else. -/
def hexVal (c : Char) : Option Nat :=
  if c.isDigit then some (c.toNat - 48)
  else if 'a' ≤ c ∧ c ≤ 'f' then some (c.toNat - 87)
  else if 'A' ≤ c ∧ c ≤ 'F' then some (c.toNat - 55)
  else none

/-- Base-16 interpretation of a list of hexadecimal digit characters. -/
def hexInterp (l : List Char) : Nat :=
  l.foldl (fun a c => a * 16 + (hexVal c).getD 0) 0

/-- Python `int(s, 16)` restricted to unsigned strings of hexadecimal
digits (the only shape the scraper feeds it: a prefix of a hexdigest).
Failure (`ValueError`) is `none`. -/
def pyIntHex (s : String) : Option Nat :=
  if s.data ≠ [] ∧ s.data.all (fun c => (hexVal c).isSome) then
    some (hexInterp s.data)
  else none

/-! ## Python `float` model

`_parse_compact_number` calls `float(token)` and then truncates
`value * multiplier` with `int(...)`.  We model the parsed value exactly as
`mantissa * 10 ^ exponent` (an `Int × Int` pair), which agrees with CPython
on every token appearing in the claims. -/

/-- Model of Python `float(s)` on finite decimal literals
`[sign] (digits [. digits] | . digits) [(e|E) [sign] digits]`.
Returns the exact value as `(mantissa, decimal exponent)`; `none` models
`ValueError`.  (`inf`/`nan` spellings and hexadecimal floats are outside
this model; no claim involves them.) -/
def pyFloatVal (s : String) : Option (Int × Int) :=
  let l := (pyStrip s).data
  let p1 : Int × List Char :=
    match l with
    | '+' :: t => (1, t)
    | '-' :: t => (-1, t)
    | t => (1, t)
  let ip := p1.2.takeWhile Char.isDigit
  let r1 := p1.2.dropWhile Char.isDigit
  let pFrac : List Char × List Char :=
    match r1 with
    | '.' :: t => (t.takeWhile Char.isDigit, t.dropWhile Char.isDigit)
    | t => ([], t)
  let fp := pFrac.1
  let r2 := pFrac.2
  let pExp : Bool × Int × List Char :=
    match r2 with
    | 'e' :: t | 'E' :: t =>
      let pe : Int × List Char :=
        match t with
        | '+' :: u => (1, u)
        | '-' :: u => (-1, u)
        | u => (1, u)
      let ed := pe.2.takeWhile Char.isDigit
      (!ed.isEmpty, pe.1 * (digitsVal ed : Int), pe.2.dropWhile Char.isDigit)
    | t => (true, 0, t)
  if (ip ≠ [] ∨ fp ≠ []) ∧ pExp.1 = true ∧ pExp.2.2 = [] then
    some (p1.1 * ((digitsVal ip * 10 ^ fp.length + digitsVal fp : Nat) : Int),
          pExp.2.1 - (fp.length : Int))
  else none

/-- Python `int(x)` (truncation toward zero) of the exact value
`mantissa * 10 ^ exponent * mult`. -/
def truncScaled (mant ex : Int) (mult : Nat) : Int :=
  if 0 ≤ ex then mant * (mult : Int) * 10 ^ ex.toNat
  else (mant * (mult : Int)).tdiv (10 ^ (-ex).toNat)

/-! ## URL helpers (`urllib.parse` collaborators) -/

/-- The module constant `DEFAULT_BASE_URL`. -/
def DEFAULT_BASE_URL : String := "https://www.quora.com"

/-- Characters allowed in a URL scheme after the leading letter. -/
def isSchemeChar (c : Char) : Bool :=
  c.isAlpha || c.isDigit || c = '+' || c = '-' || c = '.'

/-- Model of `urlparse(u).scheme` being non-empty: `u` has a `:` preceded by
a letter-initial run of scheme characters. -/
def urlScheme (u : String) : Option String :=
  let pre := u.data.takeWhile (fun c => c ≠ ':')
  if pre.length < u.data.length ∧ pre ≠ [] ∧
      (u.data.headD ' ').isAlpha ∧ pre.all isSchemeChar then
    some ⟨pre.map Char.toLower⟩
  else none

/-- Model of `urljoin(DEFAULT_BASE_URL, u)` for the fixed base
`https://www.quora.com` (scheme `https`, authority `www.quora.com`, empty
path) and references without dot-segments — the only shapes this repository
joins. -/
def urljoinBase (u : String) : String :=
  if strStartsWith u "//" then "https:" ++ u
  else if strStartsWith u "/" then DEFAULT_BASE_URL ++ u
  else if strStartsWith u "?" then DEFAULT_BASE_URL ++ u
  else if strStartsWith u "#" then DEFAULT_BASE_URL ++ u
  else if u = "" then DEFAULT_BASE_URL
  else DEFAULT_BASE_URL ++ "/" ++ u

/-- `QuoraScraper._normalize_url`: resolve against the default base when the
URL has no scheme, otherwise leave unchanged. -/
def normalizeUrl (u : String) : String :=
  if (urlScheme u).isSome then u else urljoinBase u

/-- Model of `urlparse(u).hostname` for URLs of the form
`scheme://host/...` (no userinfo/port): the authority component.  Used only
to state the host-based reading of claim C5. -/
def urlHost (u : String) : String :=
  match urlScheme u with
  | some _ =>
    let rest := (u.data.dropWhile (fun c => c ≠ ':')).drop 1
    match rest with
    | '/' :: '/' :: t =>
      ⟨t.takeWhile (fun c => c ≠ '/' ∧ c ≠ '?' ∧ c ≠ '#')⟩
    | _ => ""
  | none => ""

/-! ## SHA-256 (`hashlib.sha256(...).hexdigest()`)

A full FIPS 180-4 implementation over `Nat` byte lists; 32-bit machine words
are `Nat` values kept below `2^32` by explicit reduction. -/

/-- UTF-8 encoding of one character as a list of byte values. -/
def utf8EncodeCharNat (c : Char) : List Nat :=
  let n := c.toNat
  if n < 128 then [n]
  else if n < 2048 then [192 ||| (n >>> 6), 128 ||| (n &&& 63)]
  else if n < 65536 then
    [224 ||| (n >>> 12), 128 ||| ((n >>> 6) &&& 63), 128 ||| (n &&& 63)]
  else
    [240 ||| (n >>> 18), 128 ||| ((n >>> 12) &&& 63),
     128 ||| ((n >>> 6) &&& 63), 128 ||| (n &&& 63)]

/-- Python `s.encode("utf-8")` as a list of byte values. -/
def utf8Bytes (s : String) : List Nat :=
  s.data.flatMap utf8EncodeCharNat

/-- Reduce to a 32-bit word. -/
def w32 (n : Nat) : Nat := n % 4294967296

/-- Right rotation of a 32-bit word by `k` bits. -/
def rotr (k n : Nat) : Nat := w32 ((n >>> k) ||| (n <<< (32 - k)))

/-- The first sixty-four prime numbers, from which FIPS 180-4 derives the
SHA-256 constants. -/
def first64primes : List Nat :=
  (List.range 312).filter (fun p => 2 ≤ p ∧ ∀ d, d < p → 2 ≤ d → p % d ≠ 0)

/-- Bisection step for the integer cube root: narrow `[lo, hi)` keeping
`lo ^ 3 ≤ n`. -/
def cbrtGo (n : Nat) : Nat → Nat → Nat → Nat
  | 0, lo, _ => lo
  | fuel + 1, lo, hi =>
    if hi ≤ lo + 1 then lo
    else
      let mid := (lo + hi) / 2
      if mid ^ 3 ≤ n then cbrtGo n fuel mid hi else cbrtGo n fuel lo mid

/-- Integer cube root: the largest `k` with `k ^ 3 ≤ n`. -/
def natCbrt (n : Nat) : Nat := cbrtGo n 200 0 (n + 1)

/-- The SHA-256 round constants: the first 32 bits of the fractional parts
of the cube roots of the first 64 primes (FIPS 180-4 section 4.2.2). -/
def shaK : List Nat :=
  first64primes.map (fun p => natCbrt (p <<< 96) % 4294967296)

/-- Hash state: the eight 32-bit hash values. -/
structure Sha256State where
  h0 : Nat
  h1 : Nat
  h2 : Nat
  h3 : Nat
  h4 : Nat
  h5 : Nat
  h6 : Nat
  h7 : Nat

/-- The first 32 bits of the fractional part of the square root of `p`. -/
def sqrtFrac32 (p : Nat) : Nat := Nat.sqrt (p <<< 64) % 4294967296

/-- The SHA-256 initial hash value: derived from the square roots of the
first eight primes (FIPS 180-4 section 5.3.3). -/
def sha256init : Sha256State :=
  ⟨sqrtFrac32 2, sqrtFrac32 3, sqrtFrac32 5, sqrtFrac32 7,
   sqrtFrac32 11, sqrtFrac32 13, sqrtFrac32 17, sqrtFrac32 19⟩

/-- Working variables `a`–`h` of the compression loop. -/
structure Sha256Work where
  a : Nat
  b : Nat
  c : Nat
  d : Nat
  e : Nat
  f : Nat
  g : Nat
  h : Nat

/-- SHA-256 message padding: append `0x80`, zeros to 56 mod 64, and the
64-bit big-endian bit length. -/
def sha256pad (msg : List Nat) : List Nat :=
  let L := msg.length
  let zeros := (64 + 56 - ((L + 1) % 64)) % 64
  msg ++ [128] ++ List.replicate zeros 0 ++
    (List.range 8).map (fun i => ((L * 8) >>> (56 - 8 * i)) % 256)

/-- The `i`-th big-endian 32-bit word of a 64-byte chunk. -/
def word32At (chunk : List Nat) (i : Nat) : Nat :=
  chunk.getD (4 * i) 0 * 16777216 + chunk.getD (4 * i + 1) 0 * 65536 +
    chunk.getD (4 * i + 2) 0 * 256 + chunk.getD (4 * i + 3) 0

/-- Message-schedule extension: append `n` further words to `w`. -/
def extendW : Nat → List Nat → List Nat
  | 0, w => w
  | n + 1, w =>
    let i := w.length
    let s0 :=
      (rotr 7 (w.getD (i - 15) 0)) ^^^ (rotr 18 (w.getD (i - 15) 0)) ^^^
        ((w.getD (i - 15) 0) >>> 3)
    let s1 :=
      (rotr 17 (w.getD (i - 2) 0)) ^^^ (rotr 19 (w.getD (i - 2) 0)) ^^^
        ((w.getD (i - 2) 0) >>> 10)
    extendW n (w ++ [w32 (w.getD (i - 16) 0 + s0 + w.getD (i - 7) 0 + s1)])

/-- The 64-word message schedule of one chunk. -/
def sha256schedule (chunk : List Nat) : List Nat :=
  extendW 48 ((List.range 16).map (word32At chunk))

/-- One round of the SHA-256 compression loop. -/
def sha256round (wk : Sha256Work) (kw : Nat × Nat) : Sha256Work :=
  let S1 := (rotr 6 wk.e) ^^^ (rotr 11 wk.e) ^^^ (rotr 25 wk.e)
  let ch := (wk.e &&& wk.f) ^^^ ((wk.e ^^^ 4294967295) &&& wk.g)
  let temp1 := w32 (wk.h + S1 + ch + kw.1 + kw.2)
  let S0 := (rotr 2 wk.a) ^^^ (rotr 13 wk.a) ^^^ (rotr 22 wk.a)
  let maj := (wk.a &&& wk.b) ^^^ (wk.a &&& wk.c) ^^^ (wk.b &&& wk.c)
  let temp2 := w32 (S0 + maj)
  ⟨w32 (temp1 + temp2), wk.a, wk.b, wk.c, w32 (wk.d + temp1), wk.e, wk.f, wk.g⟩

/-- Compress one 64-byte chunk into the hash state. -/
def sha256compress (st : Sha256State) (chunk : List Nat) : Sha256State :=
  let ws := sha256schedule chunk
  let wk := (shaK.zip ws).foldl sha256round
    ⟨st.h0, st.h1, st.h2, st.h3, st.h4, st.h5, st.h6, st.h7⟩
  ⟨w32 (st.h0 + wk.a), w32 (st.h1 + wk.b), w32 (st.h2 + wk.c),
   w32 (st.h3 + wk.d), w32 (st.h4 + wk.e), w32 (st.h5 + wk.f),
   w32 (st.h6 + wk.g), w32 (st.h7 + wk.h)⟩

/-- Process `n` chunks of the padded message. -/
def sha256chunksGo : Nat → List Nat → Sha256State → Sha256State
  | 0, _, st => st
  | n + 1, data, st => sha256chunksGo n (data.drop 64) (sha256compress st (data.take 64))

/-- Big-endian bytes of a 32-bit word. -/
def word32bytes (w : Nat) : List Nat :=
  [(w >>> 24) % 256, (w >>> 16) % 256, (w >>> 8) % 256, w % 256]

/-- SHA-256 digest (32 bytes) of a byte-list message. -/
def sha256bytes (msg : List Nat) : List Nat :=
  let padded := sha256pad msg
  let st := sha256chunksGo (padded.length / 64) padded sha256init
  [st.h0, st.h1, st.h2, st.h3, st.h4, st.h5, st.h6, st.h7].flatMap word32bytes

/-- Lowercase hexadecimal digit character for `n % 16`. -/
def hexDigitChar (n : Nat) : Char :=
  "0123456789abcdef".data.getD (n % 16) '0'

/-- Hexadecimal character pair of one byte. -/
def byteHexChars (b : Nat) : List Char :=
  [hexDigitChar ((b >>> 4) % 16), hexDigitChar (b % 16)]

/-- The character list of `hashlib.sha256(msg).hexdigest()`. -/
def sha256hexChars (msg : List Nat) : List Char :=
  (sha256bytes msg).flatMap byteHexChars

/-- `hashlib.sha256(s.encode("utf-8")).hexdigest()`. -/
def sha256hexOf (s : String) : String :=
  ⟨sha256hexChars (utf8Bytes s)⟩

/-! ## HTML document model (BeautifulSoup collaborator)

A parsed page is a list of top-level `Node`s.  BeautifulSoup queries
traverse the tree in document order, i.e. pre-order. -/

/-- An HTML parse-tree node: an element with tag, attributes and children,
or a text node. -/
inductive Node where
  | text (s : String)
  | elem (tag : String) (attrs : List (String × String)) (children : List Node)

mutual

/-- All element nodes of a subtree in document order (the node itself
first). -/
def elemsNode : Node → List Node
  | .text _ => []
  | .elem t a c => .elem t a c :: elemsList c

/-- All element nodes of a forest in document order. -/
def elemsList : List Node → List Node
  | [] => []
  | n :: ns => elemsNode n ++ elemsList ns

end

mutual

/-- All text-node strings of a subtree in document order. -/
def textsNode : Node → List String
  | .text s => [s]
  | .elem _ _ c => textsList c

/-- All text-node strings of a forest in document order. -/
def textsList : List Node → List String
  | [] => []
  | n :: ns => textsNode n ++ textsList ns

end

/-- Attribute lookup on a node (`tag.get(key)` / `tag[key]`). -/
def getAttr (n : Node) (k : String) : Option String :=
  match n with
  | .text _ => none
  | .elem _ attrs _ => (attrs.find? (fun p => p.1 == k)).map (fun p => p.2)

/-- Attribute-presence test (BeautifulSoup `attrs={key: True}`). -/
def hasAttr (n : Node) (k : String) : Bool :=
  (getAttr n k).isSome

/-- Tag test. -/
def tagIs (n : Node) (t : String) : Bool :=
  match n with
  | .elem tg _ _ => tg == t
  | .text _ => false

/-- Attribute-value test (BeautifulSoup `find(tag, attr=value)`). -/
def attrEq (n : Node) (k v : String) : Bool :=
  getAttr n k == some v

/-- `get_text(sep, strip)` of a list of raw strings: with `strip`, each
string is stripped and empty results are dropped; the pieces are joined
with `sep`. -/
def getTextOfStrings (sep : String) (strip : Bool) (ts : List String) : String :=
  joinSep sep (if strip then (ts.map pyStrip).filter (fun s => s ≠ "") else ts)

/-- `container.get_text(sep, strip)`. -/
def getTextNode (sep : String) (strip : Bool) (n : Node) : String :=
  getTextOfStrings sep strip (textsNode n)

/-- `soup.get_text(sep, strip)` over the whole document. -/
def getTextList (sep : String) (strip : Bool) (soup : List Node) : String :=
  getTextOfStrings sep strip (textsList soup)

/-- `soup.find_all(...)` filtered by a predicate, in document order. -/
def findAllSoup (soup : List Node) (p : Node → Bool) : List Node :=
  (elemsList soup).filter p

/-- `container.find_all(...)`: strict descendants of a node, filtered. -/
def findAllIn (n : Node) (p : Node → Bool) : List Node :=
  match n with
  | .text _ => []
  | .elem _ _ c => (elemsList c).filter p

/-- `soup.find(...)`: the first match in document order. -/
def findSoup (soup : List Node) (p : Node → Bool) : Option Node :=
  (findAllSoup soup p).head?

/-- BeautifulSoup `.string` of a tag: the string of its single child, if
the chain of single children ends in a text node. -/
def nodeString : Node → Option String
  | .elem _ _ [Node.text s] => some s
  | .elem _ _ [n] => nodeString n
  | _ => none

/-- BeautifulSoup treats `class` as a multi-valued attribute:
`tag.get("class", [])` is the whitespace-split value list. -/
def classListOf (n : Node) : List String :=
  pySplitWs ((getAttr n "class").getD "")

/-! ## `QuoraScraper` field extractors (`quora_parser.py`) -/

/-- `token.strip().replace(",", "")` at the top of
`_parse_compact_number`. -/
def compactCleaned (token : String) : List Char :=
  (pyStrip token).data.filter (fun c => c ≠ ',')

/-- The suffix handling of `_parse_compact_number`: the multiplier chosen
from the last character (case-insensitive `k`/`m`) and the remaining
characters handed to `float(...)`. -/
def compactMultSplit (t1 : List Char) : Nat × List Char :=
  let last := Char.toLower (t1.getLastD ' ')
  if last = 'k' then (1000, t1.dropLast)
  else if last = 'm' then (1000000, t1.dropLast)
  else (1, t1)

/-- `QuoraScraper._parse_compact_number`: strip, remove commas, honour a
`k`/`m` suffix (case-insensitive), parse the rest as a float and truncate
`value * multiplier` to an integer; any parse failure is `None`. -/
def parseCompactNumber (token : String) : Option Int :=
  let t1 := compactCleaned token
  if t1.isEmpty then none
  else
    let p := compactMultSplit t1
    match pyFloatVal ⟨p.2⟩ with
    | some v => some (truncScaled v.1 v.2 p.1)
    | none => none

/-- The token-scanning loop shared by `_extract_upvotes` and
`_extract_views`: for each token containing `key` (left to right), try to
parse the immediately preceding token as a compact number; the first
successful parse wins. -/
def firstMetric (key : String) (tokens : List String) : Option Int :=
  tokens.enum.findSome? (fun p =>
    if 0 < p.1 ∧ strContains p.2 key then
      ((tokens.get? (p.1 - 1)).getD "") |> parseCompactNumber
    else none)

/-- `QuoraScraper._extract_upvotes`. -/
def extractUpvotes (container : Node) : Option Int :=
  let lowered := pyLower (getTextNode " " true container)
  if strContains lowered "upvote" then firstMetric "upvote" (pySplitWs lowered)
  else none

/-- `QuoraScraper._extract_views`. -/
def extractViews (container : Node) : Option Int :=
  let lowered := pyLower (getTextNode " " true container)
  if strContains lowered "view" then firstMetric "view" (pySplitWs lowered)
  else none

/-- `QuoraScraper._extract_author`: prefer the first descendant link if its
target contains `/profile/`, otherwise the first matching link among all
descendants; returns the normalized profile URL and the link's visible text
(empty text is `None`). -/
def extractAuthor (container : Node) : Option String × Option String :=
  let links := findAllIn container (fun n => tagIs n "a" && hasAttr n "href")
  let best : Option Node :=
    match links.head? with
    | some l =>
      if strContains ((getAttr l "href").getD "") "/profile/" then some l
      else links.find? (fun a => strContains ((getAttr a "href").getD "") "/profile/")
    | none => links.find? (fun a => strContains ((getAttr a "href").getD "") "/profile/")
  match best with
  | none => (none, none)
  | some l =>
    let name := getTextNode "" true l
    (some (normalizeUrl ((getAttr l "href").getD "")),
     if name = "" then none else some name)

/-- The raw per-block data assembled by `QuoraScraper._build_answer_dict`. -/
structure AnswerDict where
  text : String
  upvotes : Option Int
  views : Option Int
  profile_url : Option String
  author_name : Option String
deriving DecidableEq

/-- `QuoraScraper._build_answer_dict`. -/
def buildAnswerDict (container : Node) (text : String) : AnswerDict :=
  { text := text
    upvotes := extractUpvotes container
    views := extractViews container
    profile_url := (extractAuthor container).1
    author_name := (extractAuthor container).2 }

/-- Heuristic 1 of `QuoraScraper._extract_answer_blocks`: elements whose
`data-testid` attribute value contains `answer` (case-insensitively) and
whose visible text is non-empty. -/
def answersHeur1 (soup : List Node) : List AnswerDict :=
  (findAllSoup soup (fun n => hasAttr n "data-testid")).foldl
    (fun acc container =>
      if strContains (pyLower ((getAttr container "data-testid").getD "")) "answer" then
        let text := getTextNode " " true container
        if text ≠ "" then acc ++ [buildAnswerDict container text] else acc
      else acc) []

/-- Heuristic 2 of `QuoraScraper._extract_answer_blocks`: `div` elements
whose joined class list contains `answer` and whose stripped text exceeds
50 characters. -/
def answersHeur2 (soup : List Node) : List AnswerDict :=
  (findAllSoup soup (fun n => tagIs n "div")).foldl
    (fun acc container =>
      if strContains (pyLower (joinSep " " (classListOf container))) "answer" ∧
          50 < (getTextNode "" true container).data.length then
        acc ++ [buildAnswerDict container (getTextNode " " true container)]
      else acc) []

/-- The text-deduplication pass of `_extract_answer_blocks`: keep the first
block for each distinct `text`. -/
def dedupByText (l : List AnswerDict) : List AnswerDict :=
  (l.foldl
    (fun (acc : List AnswerDict × List String) a =>
      if a.text ∈ acc.2 then acc else (acc.1 ++ [a], acc.2 ++ [a.text]))
    ([], [])).1

/-- `QuoraScraper._extract_answer_blocks`: heuristic 1, falling back to
heuristic 2 when it finds nothing, then deduplication by text. -/
def extractAnswerBlocks (soup : List Node) : List AnswerDict :=
  let answers := answersHeur1 soup
  dedupByText (if answers.isEmpty then answersHeur2 soup else answers)

/-- The `og:title` branch of `_extract_title`:
`soup.find("meta", property="og:title")` with a truthy `content` attribute
returns the stripped content; otherwise this strategy falls through. -/
def titleFromOg (soup : List Node) : Option String :=
  match findSoup soup (fun n => tagIs n "meta" && attrEq n "property" "og:title") with
  | some m =>
    match getAttr m "content" with
    | some c => if c = "" then none else some (pyStrip c)
    | none => none
  | none => none

/-- The `<title>` branch of `_extract_title`: `soup.title.string`, when the
element exists and its string is truthy, stripped. -/
def titleFromTitleTag (soup : List Node) : Option String :=
  match findSoup soup (fun n => tagIs n "title") with
  | some t =>
    match nodeString t with
    | some s => if s = "" then none else some (pyStrip s)
    | none => none
  | none => none

/-- The `<h1>` branch of `_extract_title`: the first `h1` with non-empty
stripped text. -/
def titleFromH1 (soup : List Node) : Option String :=
  match findSoup soup (fun n => tagIs n "h1") with
  | some hd =>
    let tx := getTextNode "" true hd
    if tx = "" then none else some tx
  | none => none

/-- `QuoraScraper._extract_title`: the three strategies in priority order,
then the constant fallback. -/
def extractTitle (soup : List Node) : String :=
  match titleFromOg soup with
  | some t => t
  | none =>
    match titleFromTitleTag soup with
    | some t => t
    | none =>
      match titleFromH1 soup with
      | some t => t
      | none => "Quora Question"

/-- The meta-tag branch of `_extract_qid`: `soup.find("meta",
{"name": "qid"}) or soup.find("meta", {"property": "qid"})`, with a truthy
`content` attribute parsed as an integer; parse failure falls through. -/
def metaQidValue (soup : List Node) : Option Int :=
  let meta :=
    match findSoup soup (fun n => tagIs n "meta" && attrEq n "name" "qid") with
    | some m => some m
    | none => findSoup soup (fun n => tagIs n "meta" && attrEq n "property" "qid")
  match meta with
  | some m =>
    match getAttr m "content" with
    | some c => if c = "" then none else pyInt c
    | none => none
  | none => none

/-- The `data-qid` branch of `_extract_qid`: the first element carrying a
`data-qid` attribute, its value parsed as an integer; failure falls
through. -/
def dataQidValue (soup : List Node) : Option Int :=
  match findSoup soup (fun n => hasAttr n "data-qid") with
  | some holder => pyInt ((getAttr holder "data-qid").getD "")
  | none => none

/-- The hash fallback of `_extract_qid`:
`int(hashlib.sha256(url.encode("utf-8")).hexdigest()[:12], 16)`, with a
`ValueError` mapped to `None`. -/
def hashFallbackQid (url : String) : Option Int :=
  (pyIntHex (pyTake (sha256hexOf url) 12)).map Int.ofNat

/-- `QuoraScraper._extract_qid`: meta tag, then `data-qid` holder, then the
URL-hash fallback. -/
def extractQid (soup : List Node) (url : String) : Option Int :=
  match metaQidValue soup with
  | some v => some v
  | none =>
    match dataQidValue soup with
    | some v => some v
    | none => hashFallbackQid url

/-- `QuoraScraper._build_encoded_id`: the first 32 hex characters of the
SHA-256 digest of `"Question@{qid or 0}:{answer_index}"`. -/
def buildEncodedId (qid : Option Int) (answerIndex : Nat) : String :=
  pyTake (sha256hexOf ("Question@" ++ toString (qid.getD 0) ++ ":" ++
    toString answerIndex)) 32

/-! ## Records and the page parser -/

/-- The `QuoraAnswerRecord` dataclass.  `names` holds
`(givenName, familyName)` pairs. -/
structure QuoraAnswerRecord where
  index : Nat
  qid : Option Int
  id : String
  url : String
  title : String
  creationTime : String
  answerCount : Nat
  answers : String
  numUpvotes : Option Int
  numViews : Option Int
  profileUrl : Option String
  names : List (String × String)
deriving DecidableEq

/-- `QuoraScraper._parse_question_page`.  `creationTime` stands for
`to_iso(now_utc())`, which is computed once per call and shared by every
record of the batch. -/
def parseQuestionPage (creationTime : String) (soup : List Node) (url : String) :
    List QuoraAnswerRecord :=
  let title := extractTitle soup
  let qid := extractQid soup url
  let answersBlocks := extractAnswerBlocks soup
  let records : List QuoraAnswerRecord :=
    (List.enumFrom 1 answersBlocks).map (fun p =>
      { index := p.1
        qid := qid
        id := buildEncodedId qid p.1
        url := url
        title := title
        creationTime := creationTime
        answerCount := answersBlocks.length
        answers := pyStrip p.2.text
        numUpvotes := p.2.upvotes
        numViews := p.2.views
        profileUrl := p.2.profile_url
        names := [(p.2.author_name.getD "", "")] })
  if records.isEmpty then
    [{ index := 1
       qid := qid
       id := buildEncodedId qid 1
       url := url
       title := title
       creationTime := creationTime
       answerCount := 0
       answers := pyTake (getTextList " " true soup) 5000
       numUpvotes := none
       numViews := none
       profileUrl := none
       names := [("", "")] }]
  else records

/-! ## The search-results link collector -/

/-- The link targets of `soup.find_all("a", href=True)`, in document
order. -/
def hrefsOf (soup : List Node) : List String :=
  (findAllSoup soup (fun n => tagIs n "a" && hasAttr n "href")).map
    (fun n => (getAttr n "href").getD "")

/-- The interrogative slug patterns recognised by
`_parse_search_results_page`. -/
def questionPattern (href : String) : Bool :=
  strContains href "/What-" || strContains href "/How-" ||
    strContains href "/Why-" || strContains href "/Is-" ||
    strContains href "/Can-"

/-- Append with the `if full_url not in question_urls` guard. -/
def appendUnique (acc : List String) (u : String) : List String :=
  if u ∈ acc then acc else acc ++ [u]

/-- The loop body of `QuoraScraper._parse_search_results_page` over the
collected hrefs. -/
def collectLoop : List String → List String → List String
  | [], acc => acc
  | href :: rest, acc =>
    if strStartsWith href "http" && !strContains href "quora.com" then
      collectLoop rest acc
    else if strContains href "/profile/" then
      collectLoop rest acc
    else if strContains href "answer/" then
      collectLoop rest acc
    else if questionPattern href then
      collectLoop rest (appendUnique acc (normalizeUrl href))
    else if strContains href "/question/" then
      collectLoop rest (appendUnique acc (normalizeUrl href))
    else
      collectLoop rest acc

/-- `QuoraScraper._parse_search_results_page`. -/
def parseSearchResultsPage (soup : List Node) : List String :=
  collectLoop (hrefsOf soup) []

/-! ## The exporter (`exporters.py`)

File contents produced by the `json`/`pandas` serializer collaborators are
abstracted to a tag naming the serializer invoked; the claims about the
exporter concern validation, the extension map and filesystem effects, none
of which depend on the serialized bytes. -/

/-- Explicit filesystem state: directories created and files written. -/
structure FileSystem where
  dirs : List String
  files : List (String × String)
deriving DecidableEq

/-- `_ensure_dir` (`os.makedirs(path, exist_ok=True)`). -/
def ensureDir (fs : FileSystem) (path : String) : FileSystem :=
  { fs with dirs := if path ∈ fs.dirs then fs.dirs else fs.dirs ++ [path] }

/-- Writing one file. -/
def writeFileFS (fs : FileSystem) (path content : String) : FileSystem :=
  { fs with files := fs.files ++ [(path, content)] }

/-- The validation set `{"json", "csv", "excel", "html"}` of
`export_data`. -/
def supportedFormats : List String := ["json", "csv", "excel", "html"]

/-- The extension dictionary of `export_data` (looked up only after
validation succeeds). -/
def extFor (fmt : String) : String :=
  if fmt = "json" then "json"
  else if fmt = "csv" then "csv"
  else if fmt = "excel" then "xlsx"
  else "html"

/-- `export_data`: validate the format, create the output directory, build
the timestamped path, write the file, and return the path.  `ts` stands for
`timestamp_for_filename(now_utc())`.  The result pairs the filesystem after
the call with either the returned path or the `ValueError` message. -/
def exportData (records : List QuoraAnswerRecord) (outputDir : String)
    (baseFilename : String) (fmt : String) (ts : String) (fs : FileSystem) :
    FileSystem × Except String String :=
  if fmt ∉ supportedFormats then
    (fs, Except.error ("Unsupported format: " ++ fmt))
  else
    let fs1 := ensureDir fs outputDir
    let filename := baseFilename ++ "_" ++ ts ++ "." ++ extFor fmt
    let path := outputDir ++ "/" ++ filename
    (writeFileFS fs1 path fmt, Except.ok path)

/-! ## Concrete test pages used by witnesses and counterexamples -/

/-- A search-result hyperlink with the given target. -/
def aLink (href : String) : Node :=
  Node.elem "a" [("href", href)] [Node.text "link"]

/-- The five-link results page of claim C6. -/
def c6Page : List Node :=
  [aLink "/profile/alice", aLink "/What-is-AI", aLink "/answer/123",
   aLink "https://other.com/x", aLink "/question/456-foo"]

/-- An absolute link whose host is foreign but whose path mentions the
site's domain. -/
def c5Href : String := "https://evil.com/What-is-quora.com"

/-- A results page holding only `c5Href`. -/
def c5Page : List Node := [aLink c5Href]

/-- A results page holding a single accepted relative question link. -/
def c5AcceptPage : List Node := [aLink "/What-is-AI"]

/-- A content page whose `og:title` meta content is whitespace-only. -/
def c7Page : List Node :=
  [Node.elem "meta" [("property", "og:title"), ("content", " ")] []]

/-- A content page with exactly one detected answer block. -/
def demoPage : List Node :=
  [Node.elem "div" [("data-testid", "answer-main")]
    [Node.text "Sample answer body ",
     Node.elem "span" [] [Node.text " 12 upvotes and 3.4k views "],
     Node.elem "a" [("href", "/profile/bob")] [Node.text "Bob B"]]]

/-! ## Structural lemmas about the hexdigest -/

theorem length_flatMap_byteHexChars (l : List Nat) :
    (l.flatMap byteHexChars).length = 2 * l.length := by
  induction l with
  | nil => simp
  | cons b t ih =>
    simp only [List.flatMap_cons, List.length_append, ih, byteHexChars]
    simp; omega

theorem sha256bytes_length (msg : List Nat) : (sha256bytes msg).length = 32 := by
  simp [sha256bytes, word32bytes]

theorem sha256hexChars_length (msg : List Nat) : (sha256hexChars msg).length = 64 := by
  rw [sha256hexChars, length_flatMap_byteHexChars, sha256bytes_length]

theorem hexVal_hexDigitChar (n : Nat) : (hexVal (hexDigitChar n)).isSome = true := by
  have hb : ∀ m, m < 16 →
      (hexVal ("0123456789abcdef".data.getD m '0')).isSome = true := by decide
  exact hb (n % 16) (Nat.mod_lt n (by omega))

theorem mem_sha256hexChars_hex {c : Char} {msg : List Nat}
    (h : c ∈ sha256hexChars msg) : (hexVal c).isSome = true := by
  rw [sha256hexChars, List.mem_flatMap] at h
  obtain ⟨b, _, hc⟩ := h
  simp only [byteHexChars, List.mem_cons, List.not_mem_nil, or_false] at hc
  rcases hc with h1 | h1 <;> rw [h1] <;> exact hexVal_hexDigitChar _

/-- The spec-side formula of claim C4: the first 12 hexadecimal characters
of the SHA-256 hexdigest of the URL's UTF-8 encoding, read base 16. -/
def qidFromUrlHash (url : String) : Nat :=
  hexInterp ((sha256hexOf url).data.take 12)

theorem pyIntHex_sha_take12 (url : String) :
    pyIntHex (pyTake (sha256hexOf url) 12) = some (qidFromUrlHash url) := by
  have hlen : ((sha256hexOf url).data.take 12).length = 12 := by
    rw [List.length_take]
    have : (sha256hexOf url).data.length = 64 := sha256hexChars_length _
    omega
  have hne : (sha256hexOf url).data.take 12 ≠ [] := by
    apply List.ne_nil_of_length_pos; omega
  have hall : ((sha256hexOf url).data.take 12).all
      (fun c => (hexVal c).isSome) = true := by
    rw [List.all_eq_true]
    intro c hc
    exact mem_sha256hexChars_hex (List.mem_of_mem_take hc)
  rw [pyIntHex, pyTake]
  simp only [qidFromUrlHash]
  rw [if_pos ⟨hne, hall⟩]

theorem hashFallbackQid_eq (url : String) :
    hashFallbackQid url = some (Int.ofNat (qidFromUrlHash url)) := by
  rw [hashFallbackQid, pyIntHex_sha_take12, Option.map_some']

/-! ## Claim theorems -/

/-- **C4.** For every URL, when a page carries no meta-tag or
data-attribute question-id signal, the extracted question identifier equals
the integer obtained by interpreting the first 12 hexadecimal characters of
the SHA-256 digest of the URL's UTF-8 encoding as base 16; consequently two
extractions from the same URL with no structural signal yield the same
integer. -/
theorem extractQid_hash_fallback_deterministic :
    (∀ (soup : List Node) (url : String), metaQidValue soup = none →
      dataQidValue soup = none →
      extractQid soup url = some (Int.ofNat (qidFromUrlHash url))) ∧
    (∀ (s1 s2 : List Node) (url : String),
      metaQidValue s1 = none → dataQidValue s1 = none →
      metaQidValue s2 = none → dataQidValue s2 = none →
      extractQid s1 url = extractQid s2 url) := by
  have base : ∀ (soup : List Node) (url : String), metaQidValue soup = none →
      dataQidValue soup = none →
      extractQid soup url = some (Int.ofNat (qidFromUrlHash url)) := by
    intro soup url h1 h2
    rw [extractQid, h1, h2, hashFallbackQid_eq]
  exact ⟨base, fun s1 s2 url h1 h2 h3 h4 => by
    rw [base s1 url h1 h2, base s2 url h3 h4]⟩

/-- Witness for C4 at a concrete page and URL. -/
theorem extractQid_hash_fallback_deterministic_witness :
    metaQidValue [] = none ∧ dataQidValue [] = none ∧
    extractQid [] "https://www.quora.com/What-is-AI" =
      some (Int.ofNat (qidFromUrlHash "https://www.quora.com/What-is-AI")) :=
  ⟨by decide, by decide,
   extractQid_hash_fallback_deterministic.1 [] "https://www.quora.com/What-is-AI"
     (by decide) (by decide)⟩

/-- **C9.** For every URL, the question-identifier extractor returns a
present integer, never absence: when the meta-tag and data-attribute
strategies fail, the hash fallback always succeeds (the first 12 characters
of a SHA-256 hexdigest always parse base 16), so the final branch returning
absence is unreachable. -/
theorem extractQid_always_some :
    (∀ (url : String), (hashFallbackQid url).isSome = true) ∧
    (∀ (soup : List Node) (url : String), (extractQid soup url).isSome = true) := by
  have hfb : ∀ (url : String), (hashFallbackQid url).isSome = true := by
    intro url; rw [hashFallbackQid_eq]; rfl
  refine ⟨hfb, fun soup url => ?_⟩
  rw [extractQid]
  cases h1 : metaQidValue soup with
  | some v => rfl
  | none =>
    cases h2 : dataQidValue soup with
    | some v => rfl
    | none => exact hfb url

/-- **C1.** For every HTML page and URL, if the answer-block locator finds
`N` blocks with `N ≥ 1`, the page parser returns exactly `N` records, the
`i`-th record (0-based here) having index `i + 1` and every record having
`answerCount = N`; in particular the returned sequence is non-empty. -/
theorem parseQuestionPage_records_per_block (ct : String) (soup : List Node)
    (url : String) (N : Nat) (hN : (extractAnswerBlocks soup).length = N)
    (hpos : 1 ≤ N) :
    (parseQuestionPage ct soup url).length = N ∧
    (∀ i (h : i < (parseQuestionPage ct soup url).length),
      (parseQuestionPage ct soup url)[i].index = i + 1 ∧
      (parseQuestionPage ct soup url)[i].answerCount = N) ∧
    parseQuestionPage ct soup url ≠ [] := by
  simp only [parseQuestionPage]
  split
  · next hemp =>
    exfalso
    rw [List.isEmpty_iff] at hemp
    have := congrArg List.length hemp
    simp [List.enumFrom_length, hN] at this
    omega
  · refine ⟨by simp [List.enumFrom_length, hN], fun i h => ?_, ?_⟩
    · have hi : i < (extractAnswerBlocks soup).length := by
        simpa [List.enumFrom_length] using h
      constructor
      · simp [List.getElem_map, List.getElem_enumFrom]; omega
      · simp [List.getElem_map, List.getElem_enumFrom, hN]
    · intro hnil
      have := congrArg List.length hnil
      simp [List.enumFrom_length, hN] at this
      omega

/-- Witness for C1 on a one-answer concrete page. -/
theorem parseQuestionPage_records_per_block_witness :
    (extractAnswerBlocks demoPage).length = 1 ∧ 1 ≤ 1 ∧
    (parseQuestionPage "2024-01-01T00:00:00+00:00" demoPage
      "https://www.quora.com/What-is-AI").length = 1 :=
  ⟨by decide, by decide,
   (parseQuestionPage_records_per_block "2024-01-01T00:00:00+00:00" demoPage
     "https://www.quora.com/What-is-AI" 1 (by decide) (by decide)).1⟩

/-- **C2.** For every HTML page and URL, if the answer-block locator finds
zero blocks, the page parser returns exactly one record with index 1,
`answerCount` 0, `answers` equal to the page's visible text truncated to at
most 5000 characters, `numUpvotes`, `numViews` and `profileUrl` all absent,
and `names` holding one pair of empty given and family names. -/
theorem parseQuestionPage_fallback_record (ct : String) (soup : List Node)
    (url : String) (h : extractAnswerBlocks soup = []) :
    parseQuestionPage ct soup url =
      [{ index := 1
         qid := extractQid soup url
         id := buildEncodedId (extractQid soup url) 1
         url := url
         title := extractTitle soup
         creationTime := ct
         answerCount := 0
         answers := pyTake (getTextList " " true soup) 5000
         numUpvotes := none
         numViews := none
         profileUrl := none
         names := [("", "")] }] ∧
    (pyTake (getTextList " " true soup) 5000).data.length ≤ 5000 := by
  constructor
  · simp [parseQuestionPage, h]
  · exact List.length_take_le 5000 (getTextList " " true soup).data

/-- Witness for C2 on a concrete empty page. -/
theorem parseQuestionPage_fallback_record_witness :
    extractAnswerBlocks [] = [] ∧
    (pyTake (getTextList " " true []) 5000).data.length ≤ 5000 :=
  ⟨by decide, (parseQuestionPage_fallback_record "t" [] "u" (by decide)).2⟩

/-- **C3.** The compact number parser maps `"1.2k"` to 1200, `"3m"` to
3000000, `"452"` to 452, and maps `""` and `"abc"` to absence; and for
every input token, a failed numeric parse of the suffix-stripped token
yields absence rather than an error. -/
theorem parseCompactNumber_spec :
    (parseCompactNumber "1.2k" = some 1200 ∧
     parseCompactNumber "3m" = some 3000000 ∧
     parseCompactNumber "452" = some 452 ∧
     parseCompactNumber "" = none ∧
     parseCompactNumber "abc" = none) ∧
    (∀ token : String,
      pyFloatVal ⟨(compactMultSplit (compactCleaned token)).2⟩ = none →
      parseCompactNumber token = none) := by
  refine ⟨by decide, fun token h => ?_⟩
  by_cases hemp : (compactCleaned token).isEmpty
  · simp [parseCompactNumber, hemp]
  · simp [parseCompactNumber, hemp, h]

/-- Witness for C3's universal conjunct at a concrete failing token. -/
theorem parseCompactNumber_spec_witness :
    pyFloatVal ⟨(compactMultSplit (compactCleaned "x1y")).2⟩ = none ∧
    parseCompactNumber "x1y" = none :=
  ⟨by decide, parseCompactNumber_spec.2 "x1y" (by decide)⟩

/-- `appendUnique` adds at most the given URL. -/
theorem mem_appendUnique {acc : List String} {v u : String}
    (h : u ∈ appendUnique acc v) : u ∈ acc ∨ u = v := by
  rw [appendUnique] at h
  split at h
  · exact Or.inl h
  · rcases List.mem_append.mp h with h1 | h1
    · exact Or.inl h1
    · simp at h1; exact Or.inr h1

/-- Soundness of the collection loop: every collected URL is the
normalization of a link target that passes all three rejection checks and
matches a question pattern. -/
theorem collectLoop_sound (hrefs : List String) : ∀ (acc : List String) (u : String),
    u ∈ collectLoop hrefs acc →
    u ∈ acc ∨ ∃ href, href ∈ hrefs ∧
      (strStartsWith href "http" && !strContains href "quora.com") = false ∧
      strContains href "/profile/" = false ∧
      strContains href "answer/" = false ∧
      (questionPattern href || strContains href "/question/") = true ∧
      u = normalizeUrl href := by
  induction hrefs with
  | nil =>
    intro acc u hu
    rw [collectLoop] at hu
    exact Or.inl hu
  | cons hd tl ih =>
    intro acc u hu
    rw [collectLoop] at hu
    split at hu
    · rcases ih acc u hu with h | ⟨href, hm, h1, h2, h3, h4, h5⟩
      · exact Or.inl h
      · exact Or.inr ⟨href, List.mem_cons_of_mem hd hm, h1, h2, h3, h4, h5⟩
    · next hc1 =>
      split at hu
      · rcases ih acc u hu with h | ⟨href, hm, h1, h2, h3, h4, h5⟩
        · exact Or.inl h
        · exact Or.inr ⟨href, List.mem_cons_of_mem hd hm, h1, h2, h3, h4, h5⟩
      · next hc2 =>
        split at hu
        · rcases ih acc u hu with h | ⟨href, hm, h1, h2, h3, h4, h5⟩
          · exact Or.inl h
          · exact Or.inr ⟨href, List.mem_cons_of_mem hd hm, h1, h2, h3, h4, h5⟩
        · next hc3 =>
          split at hu
          · next hc4 =>
            rcases ih _ u hu with h | ⟨href, hm, h1, h2, h3, h4, h5⟩
            · rcases mem_appendUnique h with h | h
              · exact Or.inl h
              · refine Or.inr ⟨hd, List.mem_cons_self hd tl, ?_, ?_, ?_, ?_, h⟩
                · exact Bool.of_not_eq_true hc1
                · exact Bool.of_not_eq_true hc2
                · exact Bool.of_not_eq_true hc3
                · simp [hc4]
            · exact Or.inr ⟨href, List.mem_cons_of_mem hd hm, h1, h2, h3, h4, h5⟩
          · next hc4 =>
            split at hu
            · next hc5 =>
              rcases ih _ u hu with h | ⟨href, hm, h1, h2, h3, h4, h5⟩
              · rcases mem_appendUnique h with h | h
                · exact Or.inl h
                · refine Or.inr ⟨hd, List.mem_cons_self hd tl, ?_, ?_, ?_, ?_, h⟩
                  · exact Bool.of_not_eq_true hc1
                  · exact Bool.of_not_eq_true hc2
                  · exact Bool.of_not_eq_true hc3
                  · simp [hc5]
              · exact Or.inr ⟨href, List.mem_cons_of_mem hd hm, h1, h2, h3, h4, h5⟩
            · rcases ih acc u hu with h | ⟨href, hm, h1, h2, h3, h4, h5⟩
              · exact Or.inl h
              · exact Or.inr ⟨href, List.mem_cons_of_mem hd hm, h1, h2, h3, h4, h5⟩

/-- **C5, counterexample.** `https://evil.com/What-is-quora.com` is an
absolute URL (it has a scheme and starts with `http`) whose host
`evil.com` does not contain `quora.com`, yet the collector does NOT reject
it: it appears in the returned URL list.  The code tests the whole URL
string for `quora.com`, not the host. -/
theorem searchResults_host_reading_refuted :
    (urlScheme c5Href).isSome = true ∧
    strStartsWith c5Href "http" = true ∧
    strContains (urlHost c5Href) "quora.com" = false ∧
    parseSearchResultsPage c5Page = [c5Href] := by decide

/-- **C5, amended.** For every hyperlink target considered by the
search-page link collector, if the target starts with `http` and does not
contain `quora.com` anywhere in its text, or contains `/profile/`, or
contains `answer/`, then it is rejected: every URL in the returned list is
the normalized form of a target passing all three checks (and matching a
question pattern). -/
theorem searchResults_rejection_sound (soup : List Node) (u : String)
    (hu : u ∈ parseSearchResultsPage soup) :
    ∃ href, href ∈ hrefsOf soup ∧
      (strStartsWith href "http" && !strContains href "quora.com") = false ∧
      strContains href "/profile/" = false ∧
      strContains href "answer/" = false ∧
      (questionPattern href || strContains href "/question/") = true ∧
      u = normalizeUrl href := by
  rcases collectLoop_sound (hrefsOf soup) [] u hu with h | h
  · simp at h
  · exact h

/-- Witness for C5's amended theorem on a concrete accepted link. -/
theorem searchResults_rejection_sound_witness :
    "https://www.quora.com/What-is-AI" ∈ parseSearchResultsPage c5AcceptPage ∧
    (∃ href, href ∈ hrefsOf c5AcceptPage ∧
      (strStartsWith href "http" && !strContains href "quora.com") = false ∧
      strContains href "/profile/" = false ∧
      strContains href "answer/" = false ∧
      (questionPattern href || strContains href "/question/") = true ∧
      "https://www.quora.com/What-is-AI" = normalizeUrl href) :=
  ⟨by decide, searchResults_rejection_sound c5AcceptPage _ (by decide)⟩

/-- **C6.** On a results page containing exactly the links
`/profile/alice`, `/What-is-AI`, `/answer/123`, `https://other.com/x` and
`/question/456-foo` in that order, the collector returns exactly the
normalized forms of `/What-is-AI` and `/question/456-foo`, in that order,
and none of the other three targets. -/
theorem searchResults_concrete_page :
    parseSearchResultsPage c6Page =
      ["https://www.quora.com/What-is-AI",
       "https://www.quora.com/question/456-foo"] := by decide

/-- **C7, counterexample.** On a page whose `og:title` meta content is the
single space `" "`, the extracted title is the empty string: the truthiness
check sees a non-empty raw attribute, and stripping it afterwards yields
`""`.  This refutes both "first non-empty result wins" and "the extracted
title is never the empty string". -/
theorem extractTitle_empty_counterexample : extractTitle c7Page = "" := by decide

/-- A title produced by the `h1` strategy is non-empty. -/
theorem titleFromH1_ne_empty {soup : List Node} {t : String}
    (hq : titleFromH1 soup = some t) : t ≠ "" := by
  simp only [titleFromH1] at hq
  split at hq
  · split at hq
    · exact absurd hq (by simp)
    · next hne =>
      rw [Option.some_inj] at hq
      rw [← hq]
      exact hne
  · exact absurd hq (by simp)

/-- **C7, amended.** The extracted title is the stripped value of the first
present-and-raw-non-empty candidate among (a) the `og:title` meta content,
(b) the document's title string, (c) the first `h1` heading (whose stripped
text must be non-empty), with the fixed fallback `"Quora Question"` last;
the result can be empty only when the firing meta/title candidate is
whitespace-only, and is never empty when neither of those candidates
fires. -/
theorem extractTitle_priority_order :
    (∀ soup : List Node, (titleFromOg soup).isSome →
      extractTitle soup = (titleFromOg soup).getD "") ∧
    (∀ soup : List Node, titleFromOg soup = none → (titleFromTitleTag soup).isSome →
      extractTitle soup = (titleFromTitleTag soup).getD "") ∧
    (∀ soup : List Node, titleFromOg soup = none → titleFromTitleTag soup = none →
      (titleFromH1 soup).isSome →
      extractTitle soup = (titleFromH1 soup).getD "") ∧
    (∀ soup : List Node, titleFromOg soup = none → titleFromTitleTag soup = none →
      titleFromH1 soup = none → extractTitle soup = "Quora Question") ∧
    (∀ soup : List Node, titleFromOg soup = none → titleFromTitleTag soup = none →
      extractTitle soup ≠ "") := by
  refine ⟨?_, ?_, ?_, ?_, ?_⟩
  · intro soup h
    cases hq : titleFromOg soup with
    | some t => simp [extractTitle, hq]
    | none => rw [hq] at h; simp at h
  · intro soup h1 h2
    cases hq : titleFromTitleTag soup with
    | some t => simp [extractTitle, h1, hq]
    | none => rw [hq] at h2; simp at h2
  · intro soup h1 h2 h3
    cases hq : titleFromH1 soup with
    | some t => simp [extractTitle, h1, h2, hq]
    | none => rw [hq] at h3; simp at h3
  · intro soup h1 h2 h3
    simp [extractTitle, h1, h2, h3]
  · intro soup h1 h2
    cases hq : titleFromH1 soup with
    | some t =>
      simp only [extractTitle, h1, h2, hq]
      exact titleFromH1_ne_empty hq
    | none =>
      simp [extractTitle, h1, h2, hq]

/-- Witness for C7's amended theorem on a concrete signal-free page. -/
theorem extractTitle_priority_order_witness :
    titleFromOg [] = none ∧ titleFromTitleTag [] = none ∧ titleFromH1 [] = none ∧
    extractTitle [] = "Quora Question" :=
  ⟨by decide, by decide, by decide,
   extractTitle_priority_order.2.2.2.1 [] (by decide) (by decide) (by decide)⟩

/-- **C8.** Calling the exporter with a format string outside the supported
set yields the `ValueError` before any filesystem operation: the filesystem
state is returned unchanged — no directory created, no file written. -/
theorem exportData_invalid_format_no_io (records : List QuoraAnswerRecord)
    (outputDir baseFilename fmt ts : String) (fs : FileSystem)
    (h : fmt ∉ supportedFormats) :
    exportData records outputDir baseFilename fmt ts fs =
      (fs, Except.error ("Unsupported format: " ++ fmt)) := by
  simp [exportData, h]

/-- Witness for C8 at a concrete unsupported format. -/
theorem exportData_invalid_format_no_io_witness :
    "xml" ∉ supportedFormats ∧
    exportData [] "out" "quora_results" "xml" "20240101" ⟨["keep"], [("old", "json")]⟩ =
      (⟨["keep"], [("old", "json")]⟩, Except.error "Unsupported format: xml") :=
  ⟨by decide,
   exportData_invalid_format_no_io [] "out" "quora_results" "xml" "20240101"
     ⟨["keep"], [("old", "json")]⟩ (by decide)⟩

/-- **C10.** The exporter accepts exactly the format strings `json`, `csv`,
`excel` and `html`; the format string `excel` produces a file whose path
ends in `.xlsx` (and that file is written); and passing the extension name
`xlsx` as the format string is rejected with an error. -/
theorem exportData_supported_formats :
    (∀ (r : List QuoraAnswerRecord) (d b fmt ts : String) (fs : FileSystem),
      (exportData r d b fmt ts fs).2.isOk = true ↔ fmt ∈ supportedFormats) ∧
    (∀ (r : List QuoraAnswerRecord) (d b ts : String) (fs : FileSystem),
      ∃ stem,
        (exportData r d b "excel" ts fs).2 = Except.ok (stem ++ ".xlsx") ∧
        (exportData r d b "excel" ts fs).1.files =
          fs.files ++ [(stem ++ ".xlsx", "excel")]) ∧
    (∀ (r : List QuoraAnswerRecord) (d b ts : String) (fs : FileSystem),
      (exportData r d b "xlsx" ts fs).2 =
        Except.error "Unsupported format: xlsx") := by
  refine ⟨?_, ?_, ?_⟩
  · intro r d b fmt ts fs
    by_cases h : fmt ∈ supportedFormats
    · simp [exportData, h, Except.isOk, Except.toBool]
    · simp [exportData, h, Except.isOk, Except.toBool]
  · intro r d b ts fs
    refine ⟨d ++ "/" ++ (b ++ "_" ++ ts), ?_, ?_⟩ <;>
      simp [exportData, extFor, writeFileFS, ensureDir,
        show ("excel" : String) ∈ supportedFormats by decide,
        String.append_assoc, show ("." ++ "xlsx" : String) = ".xlsx" from rfl]
  · intro r d b ts fs
    simp [exportData, show ("xlsx" : String) ∉ supportedFormats by decide]

/-- Witness exercising C10's acceptance direction at a concrete call. -/
theorem exportData_supported_formats_witness :
    (exportData [] "out" "quora_results" "excel" "20240101" ⟨[], []⟩).2.isOk = true :=
  (exportData_supported_formats.1 [] "out" "quora_results" "excel" "20240101"
    ⟨[], []⟩).mpr (by decide)
